import Mathlib

/-!
Verification of the xv6 E1000 network driver (e1000.c).

The development shallowly embeds the driver's pure computations:
machine `uint` arithmetic is `Nat` with explicit reduction modulo `2^32`,
registers and buffers are modelled as functions, and the control flow of
each routine is translated into executable definitions.  Theorems below
settle the specification claims about the receive pipeline's ring
arithmetic, initialization, interrupt dispatch, device discovery, EEPROM
identity retrieval and header parsing.
-/

namespace E1000

/-- `2^32`, the modulus of the C `uint` type used throughout the driver. -/
def U32 : Nat := 4294967296

/-- Reduction of a natural number to a 32-bit unsigned value. -/
def u32 (n : Nat) : Nat := n % U32

/-- C unsigned 32-bit subtraction `a - b` (wraps around on underflow), for
`a < 2^32`. -/
def usub (a b : Nat) : Nat := (a + U32 - u32 b) % U32

/-- `PGSIZE` from mmu.h (xv6 x86 page size, 4096 bytes; echoed by the
source comment at e1000.c:233 noting each page-sized buffer is 4096 bytes). -/
def PGSIZE : Nat := 4096

/-- `sizeof(struct rx_desc)` (e1000.c:58-61): two 2-element `uint` arrays,
16 bytes. -/
def rxDescSize : Nat := 16

/-- `e1000.rx_count = PGSIZE / sizeof(struct rx_desc)` (e1000.c:198). -/
def rx_count : Nat := PGSIZE / rxDescSize

/-- The newly-available descriptor count computed by `read_packets`
(e1000.c:304): `head > tail ? head - tail : (e1000.rx_count - tail - 1) + head`,
in `uint` arithmetic.  `cap` stands for `e1000.rx_count`. -/
def availCount (cap head tail : Nat) : Nat :=
  if head > tail then usub head tail
  else u32 (usub (usub cap tail) 1 + head)

/-- The loop's ring start `i = tail % (e1000.rx_count - 1)` (e1000.c:303). -/
def ringStart (cap tail : Nat) : Nat := tail % (cap - 1)

/-- The descriptor index read on iteration `j` of the `read_packets` loop
(e1000.c:306): `idx = (i + j) % (e1000.rx_count - 1)`, in `uint` arithmetic. -/
def ringIndex (cap tail j : Nat) : Nat := u32 (ringStart cap tail + j) % (cap - 1)

/-- The value written to the receive tail register at the end of
`read_packets` (e1000.c:351): `head == 0 ? e1000.rx_count - 1 : head - 1`. -/
def rdt_after_drain (cap head : Nat) : Nat := if head = 0 then cap - 1 else head - 1

/-- The observable effect of one `read_packets` invocation (e1000.c:296-352)
given the head and tail register values: the list of descriptor indices the
loop reads, in order, and the value written back to the tail register. -/
def read_packets_model (cap head tail : Nat) : List Nat × Nat :=
  ((List.range (availCount cap head tail)).map fun j => ringIndex cap tail j,
   rdt_after_drain cap head)

/-- Reference definition following the spec's wording (not the source): the
forward circular distance from `t` to `h` around a ring of `n` slots.  It is
grounded as the brute-force distance by the characterization proved below:
for `t, h < n` it is the unique `k < n` with `(t + k) % n = h`. -/
def circularDistance (n t h : Nat) : Nat := (n + h - t) % n

/-- `TXDW`, transmit descriptor writeback interrupt cause, bit 0
(e1000.c:283). -/
def TXDW : Nat := 1

/-- `RXT0`, receive timer interrupt cause, bit 7 (e1000.c:284). -/
def RXT0 : Nat := 128

/-- The action the interrupt service routine takes for a cause mask. -/
inductive IntrAction where
  | logTxWriteback
  | drainReceive
  | noAction
deriving DecidableEq

/-- `e1000_intr` (e1000.c:282-293): reads the cause register and dispatches.
`if (mask & TXDW)` logs only; `else if (mask & RXT0)` runs `read_packets`;
otherwise nothing happens. -/
def e1000_intr (mask : Nat) : IntrAction :=
  if mask &&& TXDW ≠ 0 then IntrAction.logTxWriteback
  else if mask &&& RXT0 ≠ 0 then IntrAction.drainReceive
  else IntrAction.noAction

/-- Observable outcome of `init_rx` (e1000.c:181-236) as far as allocation
failures are concerned: the diagnostic of the `panic` reached (if any),
whether the receive-control register write (e1000.c:235) was reached, and
whether a store through a null receive-buffer-list pointer occurred. -/
structure RxInitTrace where
  diagnostic : Option String
  rctlProgrammed : Bool
  nullListStore : Bool
deriving DecidableEq

/-- Allocation behaviour of `init_rx` (e1000.c:181-236).  `alloc k` tells
whether the `k`-th `kalloc` call succeeds: call 0 is the descriptor-ring page
(e1000.c:192, checked, panics), call 1 is the receive-buffer-list page
(e1000.c:209, NOT checked by the source), and call `2 + i` is the data buffer
for slot `i` (e1000.c:211, checked, panics).  When call 1 fails, the loop
body still executes `e1000.rx_buf[i] = kalloc()` through the null list
pointer, which the trace records as `nullListStore`. -/
def init_rx_trace (cap : Nat) (alloc : Nat → Bool) : RxInitTrace :=
  if !(alloc 0) then
    { diagnostic := some "failed to allocate recieve descriptor buffer"
      rctlProgrammed := false
      nullListStore := false }
  else if (List.range cap).all (fun i => alloc (2 + i)) then
    { diagnostic := none
      rctlProgrammed := true
      nullListStore := !(alloc 1) }
  else
    { diagnostic := some "failed to allocate buffer"
      rctlProgrammed := false
      nullListStore := !(alloc 1) }

/-- Register offset `RAL` (e1000.c:43). -/
def RAL : Nat := 0x05400

/-- Register offset `RAH` (e1000.c:44). -/
def RAH : Nat := 0x05404

/-- Register offset `RDBAL` (e1000.c:29). -/
def RDBAL : Nat := 0x02800

/-- Register offset `RDBAH` (e1000.c:30). -/
def RDBAH : Nat := 0x02804

/-- Register offset `RDLEN` (e1000.c:31). -/
def RDLEN : Nat := 0x02808

/-- Register offset `RDH` (e1000.c:32). -/
def RDH : Nat := 0x02810

/-- Register offset `RDT` (e1000.c:33). -/
def RDT : Nat := 0x02818

/-- Register offset `RCTL` (e1000.c:27). -/
def RCTL : Nat := 0x00100

/-- The receive-control value assembled at e1000.c:226-234. -/
def rctl_value : Nat :=
  (1 <<< 1) ||| (1 <<< 2) ||| (1 <<< 3) ||| (1 <<< 4) ||| (1 <<< 5) |||
  (1 <<< 15) ||| (3 <<< 16) ||| (1 <<< 25)

/-- The sequence of register writes performed by a successful `init_rx`
(e1000.c:181-236), in source order.  The MAC words and the ring's physical
address are parameters since they come from EEPROM and the allocator. -/
def init_rx_writes (macLow macHigh rxPhys : Nat) : List (Nat × Nat) :=
  [(RAL, macLow), (RAH, macHigh),
   (RDBAL, rxPhys), (RDBAH, 0), (RDLEN, PGSIZE), (RDH, 0), (RDT, 0),
   (RDT, rx_count - 1),
   (RCTL, rctl_value)]

/-- The last value written to register `reg` in a write sequence. -/
def lastWrite (reg : Nat) (writes : List (Nat × Nat)) : Option Nat :=
  (writes.filterMap fun p => if p.1 = reg then some p.2 else none).getLast?

/-- `ETH_TYPE_IPV4` (e1000.c:51). -/
def ETH_TYPE_IPV4 : Nat := 0x0800

/-- `ETH_TYPE_IPV6` (e1000.c:52). -/
def ETH_TYPE_IPV6 : Nat := 0x86DD

/-- `ETH_TYPE_ARP` (e1000.c:53). -/
def ETH_TYPE_ARP : Nat := 0x0806

/-- A 16-bit big-endian (network order) field at byte offset `off` of a
buffer, as a host value. -/
def be16 (buf : Nat → Nat) (off : Nat) : Nat :=
  (buf off % 256) * 256 + buf (off + 1) % 256

/-- `struct eth_hdr`: destination (6 bytes), source (6 bytes), ether-type
(2 bytes, network order). -/
structure EthHdr where
  dst : List Nat
  src : List Nat
  ether_type : Nat
deriving DecidableEq

/-- Modelled from the spec: `eth_hdr_from_buf` (eth.c, absent from src/)
parses the fixed-layout Ethernet header from the buffer start — destination
address (6 bytes), source address (6 bytes), ether-type (2 bytes, network
byte order). -/
def eth_hdr_from_buf (buf : Nat → Nat) : EthHdr :=
  { dst := (List.range 6).map fun k => buf k % 256
    src := (List.range 6).map fun k => buf (6 + k) % 256
    ether_type := be16 buf 12 }

/-- `sizeof(struct eth_hdr)`: 6 + 6 + 2 = 14 bytes. -/
def ethHdrSize : Nat := 14

/-- `struct arp_packet`: the standard ARP wire format. -/
structure ArpPacket where
  htype : Nat
  ptype : Nat
  hlen : Nat
  plen : Nat
  oper : Nat
  sha : List Nat
  spa : List Nat
  tha : List Nat
  tpa : List Nat
deriving DecidableEq

/-- Modelled from the spec: `arp_packet_from_buf` (eth.c, absent from src/)
parses a fixed-layout ARP packet per the standard ARP wire format —
hardware/protocol type, address lengths, operation, sender/target hardware
and protocol addresses. -/
def arp_packet_from_buf (buf : Nat → Nat) : ArpPacket :=
  { htype := be16 buf 0
    ptype := be16 buf 2
    hlen := buf 4 % 256
    plen := buf 5 % 256
    oper := be16 buf 6
    sha := (List.range 6).map fun k => buf (8 + k) % 256
    spa := (List.range 4).map fun k => buf (14 + k) % 256
    tha := (List.range 6).map fun k => buf (18 + k) % 256
    tpa := (List.range 4).map fun k => buf (24 + k) % 256 }

/-- The link-layer dispatch outcome of the `switch (hdr.ether_type)` at
e1000.c:323-344. -/
inductive EthDispatch where
  | ipv4
  | ipv6
  | arp (packet : ArpPacket)
  | unknown
deriving DecidableEq

/-- The ether-type switch of `read_packets` (e1000.c:323-344): IPv4 and IPv6
log only their name; ARP additionally parses the ARP packet just after the
Ethernet header (`buffer + offset` with `offset = sizeof(struct eth_hdr)`);
anything else is unknown. -/
def eth_dispatch (ty : Nat) (buf : Nat → Nat) : EthDispatch :=
  if ty = ETH_TYPE_IPV4 then EthDispatch.ipv4
  else if ty = ETH_TYPE_IPV6 then EthDispatch.ipv6
  else if ty = ETH_TYPE_ARP then
    EthDispatch.arp (arp_packet_from_buf fun k => buf (ethHdrSize + k))
  else EthDispatch.unknown

/-- What one loop iteration of `read_packets` logs for a descriptor
(e1000.c:308-346): the Ethernet header and the dispatch outcome, both only
when the end-of-packet flag (`(desc.fields[1] & EOP) >> 1` with `EOP = 2`)
is nonzero. -/
structure PacketLog where
  eth : Option EthHdr
  dispatch : Option EthDispatch
deriving DecidableEq

/-- Header handling of one `read_packets` iteration (e1000.c:308-346), given
the descriptor's second status field and the (virtual) data buffer. -/
def process_desc (fields1 : Nat) (buf : Nat → Nat) : PacketLog :=
  if (fields1 &&& 2) >>> 1 ≠ 0 then
    { eth := some (eth_hdr_from_buf buf)
      dispatch := some (eth_dispatch (eth_hdr_from_buf buf).ether_type buf) }
  else
    { eth := none, dispatch := none }

/-- `VENDOR_ID` (e1000.c:18). -/
def VENDOR_ID : Nat := 0x8086

/-- `DEVICE_ID` (e1000.c:19). -/
def DEVICE_ID : Nat := 0x100E

/-- A byte of PCI configuration space: device slot `dev`, byte offset `off`.
`inb` returns a `uchar`, hence the reduction modulo 256. -/
def cfg_byte (cfg : Nat → Nat → Nat) (dev off : Nat) : Nat := cfg dev off % 256

/-- The vendor identifier assembled by e1000.c:104-109: byte 1 shifted left
8, or-ed with byte 0. -/
def cfg_vendor_id (cfg : Nat → Nat → Nat) (dev : Nat) : Nat :=
  (cfg_byte cfg dev 1 <<< 8) ||| cfg_byte cfg dev 0

/-- The device identifier assembled by e1000.c:111-116: byte 3 shifted left
8, or-ed with byte 2. -/
def cfg_device_id (cfg : Nat → Nat → Nat) (dev : Nat) : Nat :=
  (cfg_byte cfg dev 3 <<< 8) ||| cfg_byte cfg dev 2

/-- The match test of e1000.c:119: vendor and device identifiers both equal
the targets. -/
def is_target (cfg : Nat → Nat → Nat) (dev : Nat) : Bool :=
  cfg_vendor_id cfg dev == VENDOR_ID && cfg_device_id cfg dev == DEVICE_ID

/-- The discovery loop of `e1000init` (e1000.c:100-123): scan slots 0..3 in
order, stop at the first match (`break`), `none` when the loop exhausts the
range (`target_dev == -1`). -/
def find_device (cfg : Nat → Nat → Nat) : Option Nat :=
  if is_target cfg 0 then some 0
  else if is_target cfg 1 then some 1
  else if is_target cfg 2 then some 2
  else if is_target cfg 3 then some 3
  else none

/-- The driver's device state (`struct e1000`, e1000.c:63-71), restricted to
the observable configuration effects of initialization. -/
structure DevState where
  mmio_base : Nat
  mac : List Nat
  rxConfigured : Bool
  txConfigured : Bool
  intrConfigured : Bool
deriving DecidableEq

/-- `e1000init` (e1000.c:95-171) as a state transformer: when discovery
fails it returns at e1000.c:127 without touching any state; otherwise the
remainder of initialization (activation, EEPROM read, `init_rx`, `init_tx`,
`init_intr`), abstracted here as `activate`, runs on the found slot. -/
def e1000init_model (cfg : Nat → Nat → Nat)
    (activate : Nat → DevState → DevState) (st : DevState) : DevState :=
  match find_device cfg with
  | none => st
  | some dev => activate dev st

/-- `EEPROM_DONE` (e1000.c:96), bit 4 of the EEPROM read register. -/
def EEPROM_DONE : Nat := 0x00000010

/-- The EEPROM read request written at e1000.c:158: `0x00000001 | i << 8`
(start bit 0, word index in bits 8-15). -/
def eerd_request (i : Nat) : Nat := 1 ||| (i <<< 8)

/-- The polling loop of e1000.c:160-162 with explicit fuel.  `hw` maps the
most recently written request word to the 32-bit value the EEPROM register
reads back (the hardware response model); the loop exits with the register
value once the done bit is set. -/
def eeprom_poll (hw : Nat → Nat) (req : Nat) : Nat → Option Nat
  | 0 => none
  | fuel + 1 =>
    if u32 (hw req) &&& EEPROM_DONE ≠ 0 then some (u32 (hw req))
    else eeprom_poll hw req fuel

/-- One EEPROM word retrieval (e1000.c:157-163): write the request for word
`i`, poll until done, then take bits 16-31 of the register (`ushort part`,
hence the reduction modulo 2^16). -/
def eeprom_read_word (hw : Nat → Nat) (fuel i : Nat) : Option Nat :=
  (eeprom_poll hw (eerd_request i) fuel).map fun r => (r >>> 16) % 65536

/-- The MAC retrieval loop of e1000.c:156-165: read EEPROM words 0, 1, 2 and
lay each out little-endian (x86 `memcpy` of a `ushort`) at byte offsets
`2*i` of the 6-byte address. -/
def read_mac (hw : Nat → Nat) (fuel : Nat) : Option (List Nat) := do
  let w0 ← eeprom_read_word hw fuel 0
  let w1 ← eeprom_read_word hw fuel 1
  let w2 ← eeprom_read_word hw fuel 2
  pure [w0 % 256, w0 / 256, w1 % 256, w1 / 256, w2 % 256, w2 / 256]

/-- Test fixture: an EEPROM hardware response with the done bit set and
words 0xAABB, 0xCCDD, 0xEEFF at indices 0, 1, 2. -/
def exampleHw : Nat → Nat := fun req =>
  if req = 1 then 0xAABB0010
  else if req = 257 then 0xCCDD0010
  else if req = 513 then 0xEEFF0010
  else 0

/-- Test fixture: a broadcast Ethernet frame carrying an ARP request. -/
def exampleArpFrame : List Nat :=
  [0xFF, 0xFF, 0xFF, 0xFF, 0xFF, 0xFF,
   0x52, 0x54, 0x00, 0x12, 0x34, 0x56,
   0x08, 0x06,
   0x00, 0x01,
   0x08, 0x00,
   0x06, 0x04,
   0x00, 0x01,
   0x52, 0x54, 0x00, 0x12, 0x34, 0x56,
   0x0A, 0x00, 0x02, 0x0F,
   0x00, 0x00, 0x00, 0x00, 0x00, 0x00,
   0x0A, 0x00, 0x02, 0x02]

/-- Test fixture: the frame above as a byte-valued buffer. -/
def exampleArpBuf : Nat → Nat := fun k => exampleArpFrame.getD k 0 % 256

/-- Test fixture: a configuration space with no matching device. -/
def exampleCfgNone : Nat → Nat → Nat := fun _ _ => 0

/-- Test fixture: an unconfigured device state. -/
def exampleDevState : DevState :=
  { mmio_base := 0, mac := [], rxConfigured := false, txConfigured := false
    intrConfigured := false }

/-- Helper: for register values below the ring capacity the `uint`
arithmetic of e1000.c:304 never wraps, so `availCount` has the plain
natural-number form written in the source. -/
theorem availCount_eq_of_lt (cap head tail : Nat) (h2 : 2 ≤ cap)
    (hcap : cap ≤ 65536) (hh : head < cap) (ht : tail < cap) :
    availCount cap head tail =
      if head > tail then head - tail else cap - 1 - tail + head := by
  simp only [availCount, usub, u32, U32]
  split <;> omega

/-- Helper: for in-range head and tail the computed count never exceeds the
number of usable ring slots. -/
theorem availCount_le (cap head tail : Nat) (h2 : 2 ≤ cap)
    (hcap : cap ≤ 65536) (hh : head < cap - 1) (ht : tail < cap - 1) :
    availCount cap head tail ≤ cap - 1 := by
  rw [availCount_eq_of_lt cap head tail h2 hcap (by omega) (by omega)]
  split <;> omega

/-- C1: for head and tail in `[0, capacity-1)` with `head ≠ tail`, the count
computed at e1000.c:304 equals the forward circular distance from tail to
head around the ring of `capacity - 1` usable slots — the unique `k` below
`capacity - 1` with `(tail + k) % (capacity - 1) = head` — covering the
non-wrapped case (`head > tail`) and the wrapped case (`head < tail`).  (At
`head = tail` the formula instead yields `capacity - 1`; see the
counterexample.) -/
theorem availCount_forward_distance (cap head tail : Nat) (h2 : 2 ≤ cap)
    (hcap : cap ≤ 65536) (hh : head < cap - 1) (ht : tail < cap - 1)
    (hne : head ≠ tail) :
    availCount cap head tail = circularDistance (cap - 1) tail head ∧
    (tail + circularDistance (cap - 1) tail head) % (cap - 1) = head ∧
    circularDistance (cap - 1) tail head < cap - 1 := by
  have hval : circularDistance (cap - 1) tail head =
      if tail < head then head - tail else cap - 1 - tail + head := by
    unfold circularDistance
    rcases Nat.lt_or_ge tail head with hlt | hge
    · have h1 : cap - 1 + head - tail = (cap - 1) + (head - tail) := by omega
      rw [if_pos hlt, h1, Nat.add_mod_left, Nat.mod_eq_of_lt (by omega)]
    · have h1 : cap - 1 + head - tail = cap - 1 - tail + head := by omega
      rw [if_neg (by omega), h1, Nat.mod_eq_of_lt (by omega)]
  refine ⟨?_, ?_, ?_⟩
  · rw [availCount_eq_of_lt cap head tail h2 hcap (by omega) (by omega), hval]
  · rw [hval]
    rcases Nat.lt_or_ge tail head with hlt | hge
    · rw [if_pos hlt]
      have h1 : tail + (head - tail) = head := by omega
      rw [h1, Nat.mod_eq_of_lt (by omega)]
    · rw [if_neg (by omega)]
      have h1 : tail + (cap - 1 - tail + head) = (cap - 1) + head := by omega
      rw [h1, Nat.add_mod_left, Nat.mod_eq_of_lt (by omega)]
  · rw [hval]
    split <;> omega

/-- Witness for `availCount_forward_distance` at `cap = 256`, `head = 3`,
`tail = 250` (the wrapped case). -/
theorem availCount_forward_distance_witness :
    ((3 : Nat) < 255 ∧ (250 : Nat) < 255 ∧ (3 : Nat) ≠ 250) ∧
    availCount 256 3 250 = circularDistance 255 250 3 :=
  ⟨⟨by decide, by decide, by decide⟩,
   (availCount_forward_distance 256 3 250 (by decide) (by decide) (by decide)
     (by decide) (by decide)).1⟩

/-- Counterexample to C1 as stated: the claim's range `[0, capacity-1)`
includes `head = tail`, where the code computes `capacity - 1` while the
forward circular distance from tail to head is 0. -/
theorem availCount_equal_head_tail_cex :
    availCount 256 0 0 = 255 ∧ circularDistance 255 0 0 = 0 := by
  constructor <;> decide

/-- C2 (amended): `read_packets` writes `head - 1 (mod capacity)` to the
tail register (e1000.c:351), with `head = 0` mapping to `capacity - 1`; but
an immediate second invocation with `head` unchanged computes one
newly-available descriptor (re-examining slot `head - 1`) whenever
`head ≥ 1`, and zero only when `head = 0`. -/
theorem drain_tail_advance_and_redrain (cap head tail : Nat) (h2 : 2 ≤ cap)
    (hcap : cap ≤ 65536) (hh : head < cap) :
    (read_packets_model cap head tail).2 = (head + cap - 1) % cap ∧
    availCount cap head ((read_packets_model cap head tail).2) =
      if head = 0 then 0 else 1 := by
  have hsnd : (read_packets_model cap head tail).2 = rdt_after_drain cap head := rfl
  rw [hsnd]
  unfold rdt_after_drain
  rcases Nat.eq_zero_or_pos head with h0 | hpos
  · subst h0
    rw [if_pos rfl]
    constructor
    · rw [Nat.mod_eq_of_lt (show 0 + cap - 1 < cap by omega)]
      omega
    · rw [availCount_eq_of_lt cap 0 (cap - 1) h2 hcap (by omega) (by omega)]
      rw [if_neg (by omega), if_pos rfl]
      omega
  · rw [if_neg (by omega), if_neg (by omega)]
    constructor
    · have h1 : head + cap - 1 = cap + (head - 1) := by omega
      rw [h1, Nat.add_mod_left, Nat.mod_eq_of_lt (by omega)]
    · rw [availCount_eq_of_lt cap head (head - 1) h2 hcap hh (by omega)]
      rw [if_pos (by omega)]
      omega

/-- Witness for `drain_tail_advance_and_redrain` at `cap = 256`,
`head = 5`, `tail = 2`. -/
theorem drain_tail_advance_and_redrain_witness :
    ((5 : Nat) < 256) ∧ (read_packets_model 256 5 2).2 = (5 + 256 - 1) % 256 ∧
    availCount 256 5 ((read_packets_model 256 5 2).2) = 1 := by
  have h := drain_tail_advance_and_redrain 256 5 2 (by decide) (by decide)
    (by decide)
  exact ⟨by decide, h.1, by simpa using h.2⟩

/-- Counterexample to C2 as stated: after draining with `head = 5` the tail
register holds 4, and the immediate re-invocation computes one
newly-available descriptor, not zero. -/
theorem redrain_not_zero_cex :
    (read_packets_model 256 5 2).2 = 4 ∧ availCount 256 5 4 = 1 := by
  constructor <;> decide

/-- C3 (amended): the `j`-th descriptor read by the `read_packets` loop
(0-based) is the one at ring index `(tail + j) % (capacity - 1)` — the scan
starts at `tail` itself, not `tail + 1`, and indices wrap modulo
`capacity - 1` (e1000.c:303, 306), not modulo the full capacity. -/
theorem ring_order_from_tail (cap head tail j : Nat) (h2 : 2 ≤ cap)
    (hcap : cap ≤ 65536) (hh : head < cap - 1) (ht : tail < cap - 1)
    (hj : j < availCount cap head tail) :
    (read_packets_model cap head tail).1[j]? = some ((tail + j) % (cap - 1)) := by
  have hle := availCount_le cap head tail h2 hcap hh ht
  have hfst : (read_packets_model cap head tail).1 =
      (List.range (availCount cap head tail)).map (fun k => ringIndex cap tail k) := rfl
  rw [hfst, List.getElem?_map, List.getElem?_range hj]
  simp only [Option.map_some']
  congr 1
  show u32 (tail % (cap - 1) + j) % (cap - 1) = (tail + j) % (cap - 1)
  rw [Nat.mod_eq_of_lt ht]
  have hsmall : tail + j < U32 := by
    simp only [U32]; omega
  rw [show u32 (tail + j) = tail + j from Nat.mod_eq_of_lt hsmall]

/-- Witness for `ring_order_from_tail` at `cap = 256`, `head = 10`,
`tail = 250`, `j = 9` (wrapping across the ring boundary). -/
theorem ring_order_from_tail_witness :
    availCount 256 10 250 = 15 ∧
    (read_packets_model 256 10 250).1[9]? = some ((250 + 9) % 255) :=
  ⟨by decide,
   ring_order_from_tail 256 10 250 9 (by decide) (by decide) (by decide)
     (by decide) (by decide)⟩

/-- Counterexample to C3 as stated: with `head = 1`, `tail = 0` the loop
reads one descriptor, and it is the one at ring index 0, not at
`(tail + 1 + j) % capacity = 1` as the claim says. -/
theorem ring_order_claim_cex :
    availCount 256 1 0 = 1 ∧ (read_packets_model 256 1 0).1[0]? = some 0 ∧
    ((0 + 1 + 0) % 256 : Nat) = 1 := by
  refine ⟨by decide, by decide, by decide⟩

/-- C10: for all head and tail register values (in range or not), every
descriptor index the `read_packets` loop reads is strictly below
`rx_count - 1`, so descriptor accesses stay inside the allocated ring page
and the final slot `rx_count - 1` is never examined. -/
theorem rx_ring_access_in_bounds (head tail : Nat) :
    ∀ idx ∈ (read_packets_model rx_count head tail).1, idx < rx_count - 1 := by
  intro idx hmem
  have hfst : (read_packets_model rx_count head tail).1 =
      (List.range (availCount rx_count head tail)).map
        (fun k => ringIndex rx_count tail k) := rfl
  rw [hfst] at hmem
  rcases List.mem_map.mp hmem with ⟨j, _, rfl⟩
  simp only [ringIndex]
  exact Nat.mod_lt _ (by decide)

/-- Witness for `rx_ring_access_in_bounds` at `head = 1`, `tail = 0`: the
single index read is 0, which is below `rx_count - 1 = 255`. -/
theorem rx_ring_access_in_bounds_witness :
    (0 : Nat) ∈ (read_packets_model rx_count 1 0).1 ∧ (0 : Nat) < rx_count - 1 :=
  ⟨by decide, rx_ring_access_in_bounds 1 0 0 (by decide)⟩

set_option maxRecDepth 8192 in
/-- C4 fails on the code: failures of the descriptor-ring page (call 0) and
of any per-slot data buffer (calls 2..) do halt with a diagnostic before the
receive-control write, but a failure of the receive-buffer-list page
(call 1, e1000.c:209) is never checked: the loop stores through the null
list pointer and initialization goes on to program the receive-control
register. -/
theorem init_rx_list_alloc_unchecked :
    init_rx_trace 256 (fun k => !(k == 1)) =
      { diagnostic := none, rctlProgrammed := true, nullListStore := true } ∧
    init_rx_trace 256 (fun k => !(k == 0)) =
      { diagnostic := some "failed to allocate recieve descriptor buffer",
        rctlProgrammed := false, nullListStore := false } ∧
    init_rx_trace 256 (fun k => !(k == 7)) =
      { diagnostic := some "failed to allocate buffer",
        rctlProgrammed := false, nullListStore := false } := by
  refine ⟨by decide, by decide, by decide⟩

/-- C5 (amended): the interrupt service routine runs the receive pipeline
exactly when the receive-timer bit (bit 7) is set and the
transmit-writeback bit (bit 0) is clear; whenever bit 0 is set it only logs
(even if bit 7 is also set, because of the `else if`); with both bits clear
nothing is handled, whatever other cause bits are set. -/
theorem intr_dispatch_by_cause (mask : Nat) :
    (e1000_intr mask = IntrAction.drainReceive ↔
      (mask &&& RXT0 ≠ 0 ∧ mask &&& TXDW = 0)) ∧
    (e1000_intr mask = IntrAction.logTxWriteback ↔ mask &&& TXDW ≠ 0) ∧
    (e1000_intr mask = IntrAction.noAction ↔
      (mask &&& TXDW = 0 ∧ mask &&& RXT0 = 0)) := by
  unfold e1000_intr
  by_cases htx : mask &&& TXDW = 0
  · rw [if_neg (by simpa using htx)]
    by_cases hrx : mask &&& RXT0 = 0
    · rw [if_neg (by simpa using hrx)]
      refine ⟨?_, ?_, ?_⟩ <;> simp [htx, hrx]
    · rw [if_pos hrx]
      refine ⟨?_, ?_, ?_⟩ <;> simp [htx, hrx]
  · rw [if_pos htx]
    refine ⟨?_, ?_, ?_⟩ <;> simp [htx]

/-- Witness for `intr_dispatch_by_cause` at `mask = 128` (only the
receive-timer cause set): the pipeline runs. -/
theorem intr_dispatch_by_cause_witness :
    e1000_intr 128 = IntrAction.drainReceive :=
  (intr_dispatch_by_cause 128).1.mpr ⟨by decide, by decide⟩

/-- Counterexample to C5 as stated: with cause mask `0x81` (bits 0 and 7
both set) the receive-timer bit is set, yet the routine only logs the
transmit writeback and never invokes the receive pipeline. -/
theorem intr_rx_suppressed_by_tx_cex :
    (129 : Nat) &&& RXT0 ≠ 0 ∧ e1000_intr 129 ≠ IntrAction.drainReceive ∧
    e1000_intr 129 = IntrAction.logTxWriteback := by
  refine ⟨by decide, by decide, by decide⟩

/-- C6: the ring capacity computed by `init_rx` (e1000.c:198) is
`PGSIZE / sizeof(struct rx_desc)` (= 256), and the last value the
initialization sequence writes to the receive tail register is
`rx_count - 1` (e1000.c:223), leaving exactly the one reserved slot
unavailable to hardware. -/
theorem init_rx_capacity_and_final_tail (macLow macHigh rxPhys : Nat) :
    rx_count = PGSIZE / rxDescSize ∧ rx_count = 256 ∧
    lastWrite RDT (init_rx_writes macLow macHigh rxPhys) = some (rx_count - 1) ∧
    rx_count - 1 = 255 := by
  refine ⟨rfl, by decide, rfl, by decide⟩

/-- Witness for `init_rx_capacity_and_final_tail` at concrete parameters. -/
theorem init_rx_capacity_and_final_tail_witness :
    lastWrite RDT (init_rx_writes 0 0 0) = some 255 :=
  ((init_rx_capacity_and_final_tail 0 0 0).2.2.1).trans (by decide)

/-- C7: for a descriptor with the end-of-packet flag set, the pipeline logs
the parsed Ethernet header whatever the ether-type; ether-type 0x0806
additionally parses the fixed-layout ARP packet right after the 14-byte
Ethernet header and surfaces every field unmodified (each field is exactly
the corresponding wire bytes); 0x0800 and 0x86DD produce only a type name
and never an ARP parse; every other ether-type is logged as unknown. -/
theorem eth_dispatch_and_arp_roundtrip (fields1 : Nat) (buf : Nat → Nat)
    (heop : (fields1 &&& 2) >>> 1 ≠ 0) (hb : ∀ k, buf k < 256) :
    (process_desc fields1 buf).eth = some (eth_hdr_from_buf buf) ∧
    ((eth_hdr_from_buf buf).ether_type = ETH_TYPE_ARP →
      (process_desc fields1 buf).dispatch = some (EthDispatch.arp
        { htype := buf 14 * 256 + buf 15
          ptype := buf 16 * 256 + buf 17
          hlen := buf 18
          plen := buf 19
          oper := buf 20 * 256 + buf 21
          sha := [buf 22, buf 23, buf 24, buf 25, buf 26, buf 27]
          spa := [buf 28, buf 29, buf 30, buf 31]
          tha := [buf 32, buf 33, buf 34, buf 35, buf 36, buf 37]
          tpa := [buf 38, buf 39, buf 40, buf 41] })) ∧
    ((eth_hdr_from_buf buf).ether_type = ETH_TYPE_IPV4 →
      (process_desc fields1 buf).dispatch = some EthDispatch.ipv4) ∧
    ((eth_hdr_from_buf buf).ether_type = ETH_TYPE_IPV6 →
      (process_desc fields1 buf).dispatch = some EthDispatch.ipv6) ∧
    ((eth_hdr_from_buf buf).ether_type ≠ ETH_TYPE_IPV4 →
      (eth_hdr_from_buf buf).ether_type ≠ ETH_TYPE_IPV6 →
      (eth_hdr_from_buf buf).ether_type ≠ ETH_TYPE_ARP →
      (process_desc fields1 buf).dispatch = some EthDispatch.unknown) ∧
    (∀ p, (eth_hdr_from_buf buf).ether_type ≠ ETH_TYPE_ARP →
      (process_desc fields1 buf).dispatch ≠ some (EthDispatch.arp p)) := by
  have hmod : ∀ k, buf k % 256 = buf k := fun k => Nat.mod_eq_of_lt (hb k)
  have h6 : List.range 6 = [0, 1, 2, 3, 4, 5] := rfl
  have h4 : List.range 4 = [0, 1, 2, 3] := rfl
  unfold process_desc
  rw [if_pos heop]
  refine ⟨rfl, ?_, ?_, ?_, ?_, ?_⟩
  · intro hty
    show some (eth_dispatch (eth_hdr_from_buf buf).ether_type buf) = _
    rw [hty]
    unfold eth_dispatch
    rw [if_neg (by decide), if_neg (by decide), if_pos rfl]
    simp [arp_packet_from_buf, be16, ethHdrSize, h6, h4, hmod]
  · intro hty
    show some (eth_dispatch (eth_hdr_from_buf buf).ether_type buf) = _
    rw [hty]
    unfold eth_dispatch
    rw [if_pos rfl]
  · intro hty
    show some (eth_dispatch (eth_hdr_from_buf buf).ether_type buf) = _
    rw [hty]
    unfold eth_dispatch
    rw [if_neg (by decide), if_pos rfl]
  · intro h1 h2 h3
    show some (eth_dispatch (eth_hdr_from_buf buf).ether_type buf) = _
    unfold eth_dispatch
    rw [if_neg h1, if_neg h2, if_neg h3]
  · intro p hty
    show some (eth_dispatch (eth_hdr_from_buf buf).ether_type buf) ≠ _
    unfold eth_dispatch
    by_cases hip4 : (eth_hdr_from_buf buf).ether_type = ETH_TYPE_IPV4
    · rw [if_pos hip4]
      simp
    · rw [if_neg hip4]
      by_cases hip6 : (eth_hdr_from_buf buf).ether_type = ETH_TYPE_IPV6
      · rw [if_pos hip6]
        simp
      · rw [if_neg hip6, if_neg hty]
        simp

/-- Witness for `eth_dispatch_and_arp_roundtrip` on the example ARP frame:
the decoded ARP record equals the injected payload. -/
theorem eth_dispatch_and_arp_roundtrip_witness :
    ((2 &&& 2) >>> 1 ≠ 0) ∧
    (process_desc 2 exampleArpBuf).dispatch = some (EthDispatch.arp
      { htype := 1, ptype := 0x0800, hlen := 6, plen := 4, oper := 1
        sha := [0x52, 0x54, 0x00, 0x12, 0x34, 0x56]
        spa := [0x0A, 0x00, 0x02, 0x0F]
        tha := [0x00, 0x00, 0x00, 0x00, 0x00, 0x00]
        tpa := [0x0A, 0x00, 0x02, 0x02] }) := by
  have h := eth_dispatch_and_arp_roundtrip 2 exampleArpBuf (by decide)
    (fun k => Nat.mod_lt _ (by decide))
  exact ⟨by decide, (h.2.1 (by decide)).trans (by decide)⟩

/-- C8: `find_device` scans slots 0 through 3 and returns the first slot
whose vendor identifier is 0x8086 and device identifier is 0x100E; it
returns `none` exactly when no slot in the range matches, and in that case
`e1000init` returns with the device state unchanged, whatever the rest of
initialization would have done. -/
theorem find_device_first_match (cfg : Nat → Nat → Nat) :
    (∀ s, find_device cfg = some s →
      s < 4 ∧ is_target cfg s = true ∧ ∀ t, t < s → is_target cfg t = false) ∧
    (find_device cfg = none ↔ ∀ s, s < 4 → is_target cfg s = false) ∧
    (∀ (activate : Nat → DevState → DevState) (st : DevState),
      find_device cfg = none → e1000init_model cfg activate st = st) := by
  refine ⟨?_, ⟨?_, ?_⟩, ?_⟩
  · intro s hs
    unfold find_device at hs
    split_ifs at hs with h0 h1 h2 h3
    · injection hs with h
      subst h
      exact ⟨by omega, h0, fun t ht => absurd ht (Nat.not_lt_zero t)⟩
    · injection hs with h
      subst h
      refine ⟨by omega, h1, fun t ht => ?_⟩
      interval_cases t <;> simp_all
    · injection hs with h
      subst h
      refine ⟨by omega, h2, fun t ht => ?_⟩
      interval_cases t <;> simp_all
    · injection hs with h
      subst h
      refine ⟨by omega, h3, fun t ht => ?_⟩
      interval_cases t <;> simp_all
  · intro hnone s hs4
    unfold find_device at hnone
    split_ifs at hnone with h0 h1 h2 h3 <;> interval_cases s <;> simp_all
  · intro hall
    unfold find_device
    rw [if_neg (by simp [hall 0 (by omega)]), if_neg (by simp [hall 1 (by omega)]),
        if_neg (by simp [hall 2 (by omega)]), if_neg (by simp [hall 3 (by omega)])]
  · intro activate st hnone
    unfold e1000init_model
    rw [hnone]

/-- Witness for `find_device_first_match`: a configuration space with no
matching device leaves the state untouched. -/
theorem find_device_first_match_witness :
    find_device exampleCfgNone = none ∧
    e1000init_model exampleCfgNone
      (fun _ st => { st with mmio_base := 0xFEBC0000, rxConfigured := true })
      exampleDevState = exampleDevState :=
  ⟨by decide,
   (find_device_first_match exampleCfgNone).2.2 _ exampleDevState (by decide)⟩

/-- C9: for each EEPROM word index i in 0, 1, 2 the retrieval writes a
request with the start bit in bit 0 and the index in bits 8-15, polls the
register until the done bit (bit 4) is set, extracts the returned word from
bits 16-31, and lays the three words out in order at byte offsets 2i of the
6-byte station address (low byte first, by the x86 `memcpy` of a
`ushort`). -/
theorem eeprom_mac_retrieval (hw : Nat → Nat) (fuel : Nat) (hf : 0 < fuel)
    (hdone : ∀ i, i < 3 → u32 (hw (eerd_request i)) &&& EEPROM_DONE ≠ 0) :
    (∀ i, i < 3 → eerd_request i &&& 1 = 1 ∧ eerd_request i >>> 8 = i) ∧
    ∃ mac, read_mac hw fuel = some mac ∧ mac.length = 6 ∧
      ∀ i, i < 3 →
        mac[2 * i]? = some ((u32 (hw (eerd_request i)) >>> 16) % 256) ∧
        mac[2 * i + 1]? =
          some ((u32 (hw (eerd_request i)) >>> 16) / 256 % 256) := by
  constructor
  · intro i hi
    interval_cases i <;> exact ⟨by decide, by decide⟩
  · obtain ⟨f, rfl⟩ : ∃ f, fuel = f + 1 := ⟨fuel - 1, by omega⟩
    have hp : ∀ i, i < 3 →
        eeprom_read_word hw (f + 1) i =
          some ((u32 (hw (eerd_request i)) >>> 16) % 65536) := by
      intro i hi
      unfold eeprom_read_word eeprom_poll
      rw [if_pos (hdone i hi)]
      rfl
    have h0 := hp 0 (by omega)
    have h1 := hp 1 (by omega)
    have h2 := hp 2 (by omega)
    refine ⟨[(u32 (hw (eerd_request 0)) >>> 16) % 65536 % 256,
             (u32 (hw (eerd_request 0)) >>> 16) % 65536 / 256,
             (u32 (hw (eerd_request 1)) >>> 16) % 65536 % 256,
             (u32 (hw (eerd_request 1)) >>> 16) % 65536 / 256,
             (u32 (hw (eerd_request 2)) >>> 16) % 65536 % 256,
             (u32 (hw (eerd_request 2)) >>> 16) % 65536 / 256], ?_, rfl, ?_⟩
    · show read_mac hw (f + 1) = _
      unfold read_mac
      rw [h0, h1, h2]
      rfl
    · intro i hi
      interval_cases i <;> refine ⟨?_, ?_⟩ <;> simp <;> omega

/-- Witness for `eeprom_mac_retrieval` on the example EEPROM responder. -/
theorem eeprom_mac_retrieval_witness :
    (0 : Nat) < 1 ∧
    (∃ mac, read_mac exampleHw 1 = some mac ∧ mac.length = 6 ∧
      ∀ i, i < 3 →
        mac[2 * i]? = some ((u32 (exampleHw (eerd_request i)) >>> 16) % 256) ∧
        mac[2 * i + 1]? =
          some ((u32 (exampleHw (eerd_request i)) >>> 16) / 256 % 256)) :=
  ⟨by decide, (eeprom_mac_retrieval exampleHw 1 (by decide) (by decide)).2⟩

end E1000
